import Mathlib

/-!
Formal model of the gmail-discord-integration service.

The repository contains several near-duplicate variants of the same
poll-filter-forward program.  This file embeds, as executable Lean
definitions, the pieces of each variant that the verified properties talk
about:

* the persisted OAuth credential record and the refresh-and-merge logic
  (`src/app.ts` `refreshAccessToken`, `src/index.ts`
  `refreshAccessTokenIfNeeded` -- both implement the same
  load / check refresh token / call provider / merge / save sequence);
* the per-message processing of the poll loop for the file-token variant
  (`src/index.ts` lines 148-220, marker `"ALERT"`, plain-text body,
  sliced Discord embed) and for the Firebase variant
  (`src/index.ts` lines 414-501, marker `"Alert"`, `@everyone` content,
  skipped messages marked read);
* the whole tick of the Firebase variant including its recursive
  401-refresh-retry `catch` handler;
* the bounded in-memory log buffer `addLog`;
* the startup environment check of the Firebase variants.

External effects (Gmail API calls, the Discord webhook, persistence
writes) are modelled as an explicit trace of `Action` values; fallible
external calls are driven by explicit outcome parameters.  JavaScript
strings are modelled as Lean `String` (JS `slice(0, n)` becomes
`String.take n`; JS truthiness of an optional string means
"present and non-empty").
-/

namespace Gdi

/-! ## Credential record and store

Persisted-credential layout (`src/unnamed/part_001` `Token` table,
`token.json`): `access_token` required, the rest optional.
`expiry_date` is an epoch-ms integer, modelled as `Nat`.
-/

/-- The persisted OAuth credential record. -/
structure Credential where
  access_token : String
  refresh_token : Option String
  scope : Option String
  token_type : Option String
  expiry_date : Option Nat
deriving Repr, DecidableEq

/-- A token-refresh response from the identity provider (the
`credentials` object returned by `oAuth2Client.refreshAccessToken()`):
a fresh `access_token`, possibly a new `refresh_token`, possibly
updated auxiliary fields. -/
structure RefreshResponse where
  access_token : String
  refresh_token : Option String
  scope : Option String
  token_type : Option String
  expiry_date : Option Nat
deriving Repr, DecidableEq

/-- Provider behaviour for one refresh request: either it accepts and
returns a response, or it rejects (HTTP error from the token endpoint). -/
inductive ProviderRefresh where
  | accepts (resp : RefreshResponse)
  | rejects (msg : String)
deriving Repr, DecidableEq

/-- Failure cases of the refresh operation, mirroring the thrown
`Error`s of `refreshAccessToken` / `refreshAccessTokenIfNeeded`. -/
inductive RefreshError where
  | tokenNotFound
  | refreshTokenMissing
  | providerRejected (msg : String)
deriving Repr, DecidableEq

/-- JS object spread `{ ...old, ...new }` on a single optional field:
the new value wins when present, otherwise the old value is kept. -/
def orOld (new old : Option α) : Option α :=
  match new with
  | some v => some v
  | none => old

/-- `const updatedTokens = { ...tokens, ...credentials }`
(`src/app.ts:63`, `src/index.ts:568`): new access-token fields are
layered onto the previous record.  A successful refresh response always
carries an `access_token`; the optional fields fall back to the stored
record when the response omits them. -/
def mergeTokens (tokens : Credential) (credentials : RefreshResponse) : Credential :=
  { access_token := credentials.access_token
    refresh_token := orOld credentials.refresh_token tokens.refresh_token
    scope := orOld credentials.scope tokens.scope
    token_type := orOld credentials.token_type tokens.token_type
    expiry_date := orOld credentials.expiry_date tokens.expiry_date }

/-- `load()` on the credential store: the store is its own state
(`none` = no persisted credential, the "not found" signal of
`loadTokenFromFirebase` / the missing `token.json` file). -/
def loadToken (store : Option Credential) : Option Credential := store

/-- `refreshAccessToken` (`src/app.ts:44-72`) and
`refreshAccessTokenIfNeeded` (`src/index.ts:555-580`): load the stored
credential; fail if it is absent or has no refresh token; ask the
provider to refresh; on provider rejection re-throw; on success merge
the response over the stored record and persist the merged result.
Returns the operation result together with the post-state of the store;
the store is only written on the success path. -/
def refreshAccessToken (store : Option Credential) (provider : ProviderRefresh) :
    Except RefreshError Credential × Option Credential :=
  match store with
  | none => (Except.error RefreshError.tokenNotFound, store)
  | some tokens =>
    match tokens.refresh_token with
    | none => (Except.error RefreshError.refreshTokenMissing, store)
    | some _ =>
      match provider with
      | ProviderRefresh.rejects m => (Except.error (RefreshError.providerRejected m), store)
      | ProviderRefresh.accepts resp =>
        let updatedTokens := mergeTokens tokens resp
        (Except.ok updatedTokens, some updatedTokens)

/-! ## Gmail message shape

`gmail.users.messages.get({..., format: "full"})` returns a message
whose payload, headers, parts, part body and body data are all optional
(`?.` chains and `|| []` fallbacks in the source). -/

/-- One RFC-822 header as Gmail returns it; the value is nullable. -/
structure Header where
  name : String
  value : Option String
deriving Repr, DecidableEq

/-- `part.body` of a message part: the transport-encoded data, absent
for container parts. -/
structure PartBody where
  data : Option String
deriving Repr, DecidableEq

/-- One MIME part of a full message. -/
structure MessagePart where
  mimeType : String
  body : Option PartBody
deriving Repr, DecidableEq

/-- `msg.data.payload`: headers and parts are both nullable. -/
structure MessagePayload where
  headers : Option (List Header)
  parts : Option (List MessagePart)
deriving Repr, DecidableEq

/-- A fetched Gmail message (`format: "full"`). -/
structure GmailMessage where
  id : String
  payload : Option MessagePayload
deriving Repr, DecidableEq

/-- JS `x || d` for an optional string `x`: the default is used when
`x` is `undefined`/`null` or the empty string (both falsy). -/
def orElseStr (v : Option String) (d : String) : String :=
  match v with
  | some s => if s == "" then d else s
  | none => d

/-- `String.prototype.includes`: case-sensitive substring test. -/
def jsIncludes (s pat : String) : Bool :=
  jsIncludesAux pat.data s.data
where
  /-- Scan of the haystack character list for the pattern as a prefix. -/
  jsIncludesAux (pat : List Char) : List Char → Bool
    | [] => pat.isEmpty
    | c :: rest => pat.isPrefixOf (c :: rest) || jsIncludesAux pat rest

/-- `msg.data.payload?.headers || []`. -/
def getHeaders (msg : GmailMessage) : List Header :=
  match msg.payload with
  | some p => p.headers.getD []
  | none => []

/-- `headers.find((header) => header.name === name)?.value`. -/
def headerValue (msg : GmailMessage) (name : String) : Option String :=
  ((getHeaders msg).find? (fun header => header.name == name)).bind (·.value)

/-- `headers.find(... "Subject")?.value || "No Subject"`
(`src/index.ts:165`, `:443`, `:748`). -/
def extractSubject (msg : GmailMessage) : String :=
  orElseStr (headerValue msg "Subject") "No Subject"

/-- `headers.find(... "From")?.value || "Unknown Sender"`
(`src/index.ts:166`, `:756`). -/
def extractFrom (msg : GmailMessage) : String :=
  orElseStr (headerValue msg "From") "Unknown Sender"

/-- `msg.data.payload?.parts?.find((part) => part.mimeType === "text/plain")`
(`src/index.ts:173`, file-token variant). -/
def findPlainPart (msg : GmailMessage) : Option MessagePart :=
  (msg.payload.bind (·.parts)).bind
    (fun parts => parts.find? (fun part => part.mimeType == "text/plain"))

/-- `...find((part) => part.mimeType === "text/plain" || part.mimeType === "text/html")`
(`src/unnamed/part_000:139-141`, Firebase variants). -/
def findPlainOrHtmlPart (msg : GmailMessage) : Option MessagePart :=
  (msg.payload.bind (·.parts)).bind
    (fun parts => parts.find?
      (fun part => part.mimeType == "text/plain" || part.mimeType == "text/html"))

/-- `bodyPart?.body?.data`. -/
def partData (bodyPart : Option MessagePart) : Option String :=
  (bodyPart.bind (·.body)).bind (·.data)

/-- A 6-bit value of one base64 alphabet character (standard and
URL-safe alphabets, as Node's `Buffer.from(_, "base64")` accepts both);
`none` for padding and any other character, which Node skips. -/
def b64Val (c : Char) : Option Nat :=
  if 'A' ≤ c ∧ c ≤ 'Z' then some (c.toNat - 'A'.toNat)
  else if 'a' ≤ c ∧ c ≤ 'z' then some (c.toNat - 'a'.toNat + 26)
  else if '0' ≤ c ∧ c ≤ '9' then some (c.toNat - '0'.toNat + 52)
  else if c = '+' ∨ c = '-' then some 62
  else if c = '/' ∨ c = '_' then some 63
  else none

/-- Repack a stream of 6-bit values into bytes (3 bytes per 4 values,
with the usual truncated tail groups). -/
def b64Bytes : List Nat → List Nat
  | [a, b] => [a * 4 + b / 16]
  | [a, b, c] => [a * 4 + b / 16, b % 16 * 16 + c / 4]
  | a :: b :: c :: d :: rest =>
    (a * 4 + b / 16) :: (b % 16 * 16 + c / 4) :: (c % 4 * 64 + d) :: b64Bytes rest
  | _ => []

/-- `Buffer.from(data, "base64").toString("utf-8")`: base64-decode to
bytes, then decode the bytes as UTF-8 (the empty string when the byte
sequence is not valid UTF-8). -/
def decodeBase64Utf8 (s : String) : String :=
  let bytes := b64Bytes (s.data.filterMap b64Val)
  (String.fromUTF8? (ByteArray.mk (Array.mk (bytes.map UInt8.ofNat)))).getD ""

/-- `bodyPart?.body?.data ? Buffer.from(...).toString("utf-8") : "No Body Content"`
over the plain-text-only part search (`src/index.ts:173-176`). -/
def extractBodyPlain (msg : GmailMessage) : String :=
  match partData (findPlainPart msg) with
  | some d => if d == "" then "No Body Content" else decodeBase64Utf8 d
  | none => "No Body Content"

/-- The same body extraction over the plain-or-html part search
(`src/unnamed/part_000:139-144`). -/
def extractBodyPlainOrHtml (msg : GmailMessage) : String :=
  match partData (findPlainOrHtmlPart msg) with
  | some d => if d == "" then "No Body Content" else decodeBase64Utf8 d
  | none => "No Body Content"

/-! ## Observable actions of the poll loop

Every externally visible effect of one tick is recorded in order:
Gmail API calls, Discord webhook posts, log lines, and the
refresh-token call of the 401 handler. -/

/-- Log severity, as passed to the variants' loggers. -/
inductive LogLevel where
  | info
  | warn
  | error
deriving Repr, DecidableEq

/-- `{ name, value, inline }` of a Discord embed field. -/
structure EmbedField where
  name : String
  value : String
  inlineFld : Option Bool
deriving Repr, DecidableEq

/-- One Discord embed object. -/
structure DiscordEmbed where
  title : String
  description : String
  color : Option Nat
  fields : List EmbedField
deriving Repr, DecidableEq

/-- The JSON body posted to the webhook: a nullable `content` string
plus a list of embeds. -/
structure DiscordMessagePayload where
  content : Option String
  embeds : List DiscordEmbed
deriving Repr, DecidableEq

/-- One observable effect of the loop. -/
inductive Action where
  /-- `gmail.users.messages.list({userId, maxResults, q: "is:unread"})`. -/
  | listUnread (maxResults : Nat)
  /-- `gmail.users.messages.get({userId, id, format: "full"})`. -/
  | getMessage (id : String)
  /-- `axios.post(WEBHOOK_URL, messagePayload)`. -/
  | post (payload : DiscordMessagePayload)
  /-- `gmail.users.messages.modify({userId, id, requestBody: {removeLabelIds}})`. -/
  | modify (id : String) (removeLabelIds : List String)
  /-- The 401 handler's call to `refreshAccessTokenIfNeeded()`. -/
  | refreshCall
  /-- A log line. -/
  | log (level : LogLevel) (message : String)
deriving Repr, DecidableEq

/-- Is the action a webhook post? -/
def Action.isPost : Action → Bool
  | Action.post _ => true
  | _ => false

/-- Is the action a label modification (the mark-as-read call)? -/
def Action.isModify : Action → Bool
  | Action.modify _ _ => true
  | _ => false

/-- Is the action an error-level log line? -/
def Action.isErrorLog : Action → Bool
  | Action.log LogLevel.error _ => true
  | _ => false

/-- Is the action a `messages.list` call (one fetch attempt)? -/
def Action.isListUnread : Action → Bool
  | Action.listUnread _ => true
  | _ => false

/-- The webhook payloads of a trace, in order. -/
def postsOf (trace : List Action) : List DiscordMessagePayload :=
  trace.filterMap (fun a =>
    match a with
    | Action.post payload => some payload
    | _ => none)

/-! ## File-token variant: per-message processing and Discord payload

`src/index.ts` lines 148-220: marker `"ALERT"`, plain-text body only,
embed with `slice`-truncated fields; messages failing the filter are
skipped with `continue` and are NOT marked read. -/

/-- The `emailData` argument of `sendToDiscord`. -/
structure EmailData where
  from_ : String
  subject : String
  body : String
deriving Repr, DecidableEq

/-- The `messagePayload` literal of `sendToDiscord`
(`src/index.ts:197-213`): `content: null`, one embed with
`subject.slice(0, 256)`, `body.slice(0, 4096)`, color `3447003`, and a
`From` field with `from.slice(0, 1024)`. -/
def buildDiscordPayload (emailData : EmailData) : DiscordMessagePayload :=
  { content := none
    embeds := [
      { title := emailData.subject.take 256
        description := emailData.body.take 4096
        color := some 3447003
        fields := [
          { name := "From"
            value := emailData.from_.take 1024
            inlineFld := some false } ] } ] }

/-- `sendToDiscord` of the file-token variant (`src/index.ts:195-220`):
builds the payload, posts it, and catches any webhook failure inside
the function, logging an error instead of re-throwing.  `netOk` drives
the outcome of the `axios.post` call; the function is total (it never
propagates a failure to its caller). -/
def sendToDiscord (netOk : Bool) (emailData : EmailData) : List Action :=
  let messagePayload := buildDiscordPayload emailData
  if netOk then
    [Action.post messagePayload,
     Action.log LogLevel.info s!"Message sent to Discord: {emailData.subject}"]
  else
    [Action.post messagePayload,
     Action.log LogLevel.error "Failed to send email to Discord"]

/-- The body of the `for` loop of `fetchAndProcessEmails` in the
file-token variant (`src/index.ts:162-187`), applied to one fetched
message: extract subject and sender; if the subject does not contain
`"ALERT"`, log and `continue` (no further action for this message);
otherwise extract the body, forward to Discord, and remove the
`UNREAD` label. -/
def processMessageFile (netOk : Bool) (msg : GmailMessage) : List Action :=
  let subject := extractSubject msg
  let from_ := extractFrom msg
  if !(jsIncludes subject "ALERT") then
    [Action.log LogLevel.info s!"Skipping email with subject: {subject}"]
  else
    let body := extractBodyPlain msg
    sendToDiscord netOk { from_ := from_, subject := subject, body := body } ++
      [Action.modify msg.id ["UNREAD"],
       Action.log LogLevel.info s!"Processed and marked email as read: {subject}"]

/-! ## Firebase variant: per-message processing and the recursive tick

`src/index.ts` lines 414-501 (same code in `src/unnamed/part_002`
without the in-memory processed-id set): marker `"Alert"`, webhook
payload `content: "@everyone " + subject`, skipped messages ARE marked
read, and a `catch` handler that on a 401 refreshes the token and
recursively re-runs the whole tick. -/

/-- `sendToDiscord` of the Firebase variant (`src/index.ts:491-501`):
posts `{ content: "@everyone <subject>" }`; failures are caught and
logged inside the function. -/
def sendToDiscordFb (netOk : Bool) (subject : String) : List Action :=
  let messagePayload : DiscordMessagePayload :=
    { content := some ("@everyone " ++ subject), embeds := [] }
  if netOk then
    [Action.post messagePayload]
  else
    [Action.post messagePayload,
     Action.log LogLevel.error "Failed to send message to Discord"]

/-- The body of the `for` loop of the Firebase variant's
`fetchAndProcessEmails` (`src/index.ts:435-473`), applied to one
fetched message: extract the subject; if it does not contain `"Alert"`,
mark the skipped message as read and `continue`; otherwise forward the
subject to Discord and mark the message as read. -/
def processMessageFb (netOk : Bool) (msg : GmailMessage) : List Action :=
  let subject := extractSubject msg
  if !(jsIncludes subject "Alert") then
    [Action.log LogLevel.info s!"Skipped: {subject}",
     Action.modify msg.id ["UNREAD"],
     Action.log LogLevel.info "Skipped email marked as read."]
  else
    [Action.log LogLevel.info s!"Got: {subject}"] ++
      sendToDiscordFb netOk subject ++
      [Action.modify msg.id ["UNREAD"],
       Action.log LogLevel.info "Processed email marked as read."]

/-- Outcome of one entry into the `try` block of the Firebase variant's
tick: the `messages.list` call (and the per-message calls after it)
either succeed, or some Gmail call rejects with HTTP 401, or rejects
with a non-401 error. -/
inductive AttemptOutcome where
  | ok (msgs : List GmailMessage)
  | unauthorized
  | otherError (msg : String)
deriving Repr, DecidableEq

/-- The Firebase variant's `fetchAndProcessEmails`
(`src/index.ts:414-485`): list unread messages and process each; in the
`catch`, a 401 triggers `refreshAccessTokenIfNeeded()` followed by a
recursive call `fetchAndProcessEmails(gmailClient)` — the retry is
self-recursion, not a bounded loop.  `outcomes` gives the result of
each successive entry into the `try` block and `refreshOutcomes` the
result of each successive refresh call (`false` = the refresh throws,
which propagates out of the `catch` and ends the tick). -/
def fetchAndProcessEmailsFb (netOk : Bool) (maxResults : Nat) :
    List AttemptOutcome → List Bool → List Action
  | [], _ => []
  | AttemptOutcome.ok msgs :: _, _ =>
    Action.listUnread maxResults ::
      msgs.flatMap (fun msg => Action.getMessage msg.id :: processMessageFb netOk msg)
  | AttemptOutcome.otherError e :: _, _ =>
    [Action.listUnread maxResults, Action.log LogLevel.error s!"Error: {e}"]
  | AttemptOutcome.unauthorized :: _, [] =>
    [Action.listUnread maxResults, Action.refreshCall]
  | AttemptOutcome.unauthorized :: rest, refreshOk :: refreshRest =>
    if refreshOk then
      Action.listUnread maxResults :: Action.refreshCall ::
        fetchAndProcessEmailsFb netOk maxResults rest refreshRest
    else
      [Action.listUnread maxResults, Action.refreshCall]

/-- Number of fetch attempts (entries into the `try` block, each
starting with a `messages.list` call) in a trace. -/
def fetchAttempts (trace : List Action) : Nat :=
  trace.countP Action.isListUnread

/-! ## Bounded in-memory log buffer

`addLog` (`src/index.ts:269-276` with capacity 20, `src/index.ts:638-643`
with capacity 100, `src/unnamed/part_002:29-36` with capacity 20):
`logs.push(logEntry); if (logs.length > CAP) logs.shift();`. -/

/-- One `addLog` call on the in-memory buffer with capacity `cap`:
append the entry, then evict the oldest entry when the length exceeds
the capacity. -/
def addLog (cap : Nat) (logs : List String) (logEntry : String) : List String :=
  let pushed := logs ++ [logEntry]
  if pushed.length > cap then pushed.drop 1 else pushed

/-! ## Startup configuration check

`src/index.ts:252-265` (identical in the other Firebase variants):
destructure `process.env` with defaults for `PORT`,
`REFRESH_MAILS_TIME_MS` and `MAX_EMAILS_TO_FETCH`, then exit when any
of `CLIENT_ID`, `CLIENT_SECRET`, `REDIRECT_URI`, `WEBHOOK_URL` is
falsy. -/

/-- The environment variables the program reads; `none` = unset. -/
structure Env where
  CLIENT_ID : Option String
  CLIENT_SECRET : Option String
  REDIRECT_URI : Option String
  WEBHOOK_URL : Option String
  PORT : Option String
  REFRESH_MAILS_TIME_MS : Option String
  MAX_EMAILS_TO_FETCH : Option String
deriving Repr, DecidableEq

/-- JS falsiness of an optional environment string: unset or empty. -/
def jsFalsyStr (v : Option String) : Bool :=
  match v with
  | some s => s == ""
  | none => true

/-- `if (!CLIENT_ID || !CLIENT_SECRET || !REDIRECT_URI || !WEBHOOK_URL) ... process.exit(1)`
(`src/index.ts:262-265`): whether startup exits immediately. -/
def startupExits (env : Env) : Bool :=
  jsFalsyStr env.CLIENT_ID || jsFalsyStr env.CLIENT_SECRET ||
    jsFalsyStr env.REDIRECT_URI || jsFalsyStr env.WEBHOOK_URL

/-- `REFRESH_MAILS_TIME_MS = "60000"` destructuring default
(`src/index.ts:258`): the value used when the variable is unset. -/
def effectiveRefreshMs (env : Env) : String :=
  env.REFRESH_MAILS_TIME_MS.getD "60000"

/-- `MAX_EMAILS_TO_FETCH = "10"` destructuring default
(`src/index.ts:259`). -/
def effectiveMaxEmails (env : Env) : String :=
  env.MAX_EMAILS_TO_FETCH.getD "10"

/-! ## Concrete example inputs -/

/-- An unread message whose subject contains no marker substring. -/
def msgNoAlert : GmailMessage :=
  { id := "m1"
    payload := some
      { headers := some [{ name := "Subject", value := some "Weekly newsletter" },
                         { name := "From", value := some "alice@example.com" }]
        parts := some [] } }

/-- An unread message whose subject contains the `"ALERT"` marker. -/
def msgAlert : GmailMessage :=
  { id := "m2"
    payload := some
      { headers := some [{ name := "Subject", value := some "Server ALERT: disk full" },
                         { name := "From", value := some "bob@example.com" }]
        parts := some [] } }

/-- A message with no payload at all: every extracted field is absent. -/
def msgEmpty : GmailMessage := { id := "m0", payload := none }

/-- A stored credential that has a refresh token. -/
def credStored : Credential :=
  { access_token := "old-access"
    refresh_token := some "stored-refresh"
    scope := some "https://www.googleapis.com/auth/gmail.modify"
    token_type := some "Bearer"
    expiry_date := some 1700000000000 }

/-- A refresh response carrying only a new access token and expiry. -/
def respNoNewRt : RefreshResponse :=
  { access_token := "new-access"
    refresh_token := none
    scope := none
    token_type := some "Bearer"
    expiry_date := some 1700000360000 }

/-! ## Theorems -/

/-- C3: for every stored credential with a refresh token, a successful
refresh followed by a load of the persisted credential yields an access
token equal to the newly issued value and a refresh token equal to the
prior stored value unless the provider's refresh response itself
contained a new refresh token. -/
theorem C3_refresh_then_load (cred : Credential) (rt : String) (resp : RefreshResponse)
    (h : cred.refresh_token = some rt) :
    (refreshAccessToken (some cred) (ProviderRefresh.accepts resp)).1 =
      Except.ok (mergeTokens cred resp) ∧
    loadToken (refreshAccessToken (some cred) (ProviderRefresh.accepts resp)).2 =
      some (mergeTokens cred resp) ∧
    (mergeTokens cred resp).access_token = resp.access_token ∧
    (mergeTokens cred resp).refresh_token =
      (match resp.refresh_token with
       | some newRt => some newRt
       | none => cred.refresh_token) := by
  refine ⟨?_, ?_, rfl, ?_⟩
  · simp [refreshAccessToken, h]
  · simp [refreshAccessToken, loadToken, h]
  · cases hr : resp.refresh_token <;> simp [mergeTokens, orOld, hr]

/-- C3 witness: the theorem at a concrete credential and response. -/
theorem C3_witness :
    (refreshAccessToken (some credStored) (ProviderRefresh.accepts respNoNewRt)).1 =
      Except.ok (mergeTokens credStored respNoNewRt) ∧
    loadToken (refreshAccessToken (some credStored) (ProviderRefresh.accepts respNoNewRt)).2 =
      some (mergeTokens credStored respNoNewRt) ∧
    (mergeTokens credStored respNoNewRt).access_token = respNoNewRt.access_token ∧
    (mergeTokens credStored respNoNewRt).refresh_token =
      (match respNoNewRt.refresh_token with
       | some newRt => some newRt
       | none => credStored.refresh_token) :=
  C3_refresh_then_load credStored "stored-refresh" respNoNewRt rfl

/-- C6: the refresh operation fails if and only if no refresh token is
available from the store (no stored credential, or a stored credential
without a refresh token) or the provider rejects the refresh request;
in all other cases it succeeds with the merged credential, which is
also persisted. -/
theorem C6_refresh_error_iff (store : Option Credential) (provider : ProviderRefresh) :
    ((∃ e, (refreshAccessToken store provider).1 = Except.error e) ↔
      ((loadToken store).bind (fun c => c.refresh_token) = none ∨
        ∃ m, provider = ProviderRefresh.rejects m)) ∧
    (∀ cred resp, store = some cred → provider = ProviderRefresh.accepts resp →
      cred.refresh_token ≠ none →
      (refreshAccessToken store provider).1 = Except.ok (mergeTokens cred resp) ∧
      (refreshAccessToken store provider).2 = some (mergeTokens cred resp)) := by
  constructor
  · cases store with
    | none => simp [refreshAccessToken, loadToken]
    | some cred =>
      cases hr : cred.refresh_token with
      | none => simp [refreshAccessToken, loadToken, hr]
      | some rt =>
        cases provider with
        | accepts resp => simp [refreshAccessToken, loadToken, hr]
        | rejects m => simp [refreshAccessToken, loadToken, hr]
  · intro cred resp hs hp hrt
    subst hs; subst hp
    cases hr : cred.refresh_token with
    | none => exact absurd hr hrt
    | some rt => simp [refreshAccessToken, hr]

/-- C6 witness: with no stored credential the refresh fails. -/
theorem C6_witness :
    ∃ e, (refreshAccessToken none (ProviderRefresh.rejects "invalid_grant")).1 =
      Except.error e :=
  (C6_refresh_error_iff none (ProviderRefresh.rejects "invalid_grant")).1.mpr
    (Or.inl rfl)

/-- C9: on every failing refresh the store is not written, so a
subsequent load returns the pre-refresh credential. -/
theorem C9_no_write_on_error (store : Option Credential) (provider : ProviderRefresh)
    (e : RefreshError) (h : (refreshAccessToken store provider).1 = Except.error e) :
    (refreshAccessToken store provider).2 = store ∧
    loadToken (refreshAccessToken store provider).2 = loadToken store := by
  cases store with
  | none => exact ⟨rfl, rfl⟩
  | some cred =>
    cases hr : cred.refresh_token with
    | none => simp [refreshAccessToken, loadToken, hr]
    | some rt =>
      cases provider with
      | accepts resp => simp [refreshAccessToken, hr] at h
      | rejects m => simp [refreshAccessToken, loadToken, hr]

/-- C9 witness: the theorem at an absent stored credential. -/
theorem C9_witness :
    (refreshAccessToken none (ProviderRefresh.rejects "invalid_grant")).2 = none ∧
    loadToken (refreshAccessToken none (ProviderRefresh.rejects "invalid_grant")).2 =
      loadToken none :=
  C9_no_write_on_error none (ProviderRefresh.rejects "invalid_grant")
    RefreshError.tokenNotFound rfl

/-- C7: the in-memory log buffer is bounded: starting from a buffer
within its capacity (20 in one variant, 100 in another), every append
leaves at most `cap` entries; below capacity the entry is simply
appended, and at capacity the oldest entry is evicted while the
insertion order of the remainder is preserved. -/
theorem C7_log_buffer_bounded (cap : Nat) (logs : List String) (logEntry : String)
    (hcap : 0 < cap) (hlen : logs.length ≤ cap) :
    (addLog cap logs logEntry).length ≤ cap ∧
    (logs.length < cap → addLog cap logs logEntry = logs ++ [logEntry]) ∧
    (logs.length = cap → addLog cap logs logEntry = logs.drop 1 ++ [logEntry]) := by
  unfold addLog
  by_cases hgt : (logs ++ [logEntry]).length > cap
  · have hl : logs.length = cap := by
      simp only [List.length_append, List.length_singleton] at hgt
      omega
    refine ⟨?_, ?_, ?_⟩
    · rw [if_pos hgt]
      simp only [List.length_drop, List.length_append, List.length_singleton]
      omega
    · intro hlt; omega
    · intro _
      rw [if_pos hgt, List.drop_append_of_le_length (by omega)]
  · have hl : logs.length < cap := by
      simp only [List.length_append, List.length_singleton] at hgt
      omega
    refine ⟨?_, ?_, ?_⟩
    · rw [if_neg hgt]
      simp only [List.length_append, List.length_singleton]
      omega
    · intro _; rw [if_neg hgt]
    · intro heq; omega

/-- C7 witness: a capacity-2 buffer at capacity evicts its oldest
entry on append. -/
theorem C7_witness :
    (addLog 2 ["a", "b"] "c").length ≤ 2 ∧
    addLog 2 ["a", "b"] "c" = ["a", "b"].drop 1 ++ ["c"] :=
  ⟨(C7_log_buffer_bounded 2 ["a", "b"] "c" (by decide) (by decide)).1,
   (C7_log_buffer_bounded 2 ["a", "b"] "c" (by decide) (by decide)).2.2 rfl⟩

/-- A concrete environment where the four checked variables are set and
the poll interval and max-items variables are unset. -/
def envOptionalUnset : Env :=
  { CLIENT_ID := some "client-id"
    CLIENT_SECRET := some "client-secret"
    REDIRECT_URI := some "http://localhost:3000/oauth2callback"
    WEBHOOK_URL := some "https://discord.test/webhook"
    PORT := none
    REFRESH_MAILS_TIME_MS := none
    MAX_EMAILS_TO_FETCH := none }

/-- C5 counterexample: with the poll interval and the max-items-per-poll
variables missing (and the four credential/webhook variables present)
the process does NOT exit — the claim that all six are required at
startup fails on the code, which checks only four and gives the other
two destructuring defaults. -/
theorem C5_counterexample :
    envOptionalUnset.REFRESH_MAILS_TIME_MS = none ∧
    envOptionalUnset.MAX_EMAILS_TO_FETCH = none ∧
    startupExits envOptionalUnset = false := by decide

/-- C5 (amended): the client id, client secret, redirect URI and
webhook URL are required — startup exits exactly when one of those four
is unset or empty; the poll interval and max items per poll are
optional and do not influence the exit decision, defaulting to
`"60000"` and `"10"` when unset. -/
theorem C5_required_config (env : Env) :
    (startupExits env = true ↔
      (jsFalsyStr env.CLIENT_ID = true ∨ jsFalsyStr env.CLIENT_SECRET = true ∨
       jsFalsyStr env.REDIRECT_URI = true ∨ jsFalsyStr env.WEBHOOK_URL = true)) ∧
    (∀ v w, startupExits
        { env with REFRESH_MAILS_TIME_MS := v, MAX_EMAILS_TO_FETCH := w } =
      startupExits env) ∧
    (env.REFRESH_MAILS_TIME_MS = none → effectiveRefreshMs env = "60000") ∧
    (env.MAX_EMAILS_TO_FETCH = none → effectiveMaxEmails env = "10") := by
  refine ⟨?_, fun v w => rfl, ?_, ?_⟩
  · simp [startupExits, Bool.or_eq_true, or_assoc]
  · intro h; simp [effectiveRefreshMs, h]
  · intro h; simp [effectiveMaxEmails, h]

/-- C5 witness: an unset client id forces the exit, and the unset poll
interval defaults to 60000 ms. -/
theorem C5_witness :
    startupExits { envOptionalUnset with CLIENT_ID := none } = true ∧
    effectiveRefreshMs envOptionalUnset = "60000" :=
  ⟨(C5_required_config { envOptionalUnset with CLIENT_ID := none }).1.mpr
      (Or.inl rfl),
   (C5_required_config envOptionalUnset).2.2.1 rfl⟩

/-- C1 counterexample: in the file-token variant
(`src/index.ts:162-187`), a message whose subject lacks the `"ALERT"`
marker is skipped with `continue` — the forward step is indeed never
invoked, but no `modify` (mark-as-read) call is issued for it either,
so the item is NOT transitioned to read. -/
theorem C1_counterexample :
    jsIncludes (extractSubject msgNoAlert) "ALERT" = false ∧
    postsOf (processMessageFile true msgNoAlert) = [] ∧
    (processMessageFile true msgNoAlert).any Action.isModify = false := by decide

/-- C1 (amended): for every item whose title lacks the marker
substring, the forward step is never invoked in either variant; the
item is transitioned to read before the loop continues only in the
Firebase variant (`src/index.ts:445-457`), while the file-token
variant (`src/index.ts:162-187`) skips it without removing the
`UNREAD` label. -/
theorem C1_filtered_item_handling (netOk : Bool) (msg : GmailMessage)
    (hA : jsIncludes (extractSubject msg) "ALERT" = false)
    (hB : jsIncludes (extractSubject msg) "Alert" = false) :
    postsOf (processMessageFile netOk msg) = [] ∧
    (processMessageFile netOk msg).any Action.isModify = false ∧
    postsOf (processMessageFb netOk msg) = [] ∧
    Action.modify msg.id ["UNREAD"] ∈ processMessageFb netOk msg := by
  refine ⟨?_, ?_, ?_, ?_⟩ <;>
    simp [processMessageFile, processMessageFb, hA, hB, postsOf, Action.isModify]

/-- C1 witness: the amended theorem at the "Weekly newsletter"
message. -/
theorem C1_witness :
    postsOf (processMessageFile true msgNoAlert) = [] ∧
    (processMessageFile true msgNoAlert).any Action.isModify = false ∧
    postsOf (processMessageFb true msgNoAlert) = [] ∧
    Action.modify msgNoAlert.id ["UNREAD"] ∈ processMessageFb true msgNoAlert :=
  C1_filtered_item_handling true msgNoAlert (by decide) (by decide)

/-- C2 counterexample: a tick of the Firebase variant whose first two
fetch attempts both receive 401 and whose two refresh calls both
succeed performs a THIRD `messages.list` call — the second consecutive
unauthorized response does not end the tick. -/
theorem C2_counterexample :
    fetchAttempts (fetchAndProcessEmailsFb true 10
      [AttemptOutcome.unauthorized, AttemptOutcome.unauthorized, AttemptOutcome.ok []]
      [true, true]) = 3 := by decide

/-- C2 (amended): on an unauthorized response the tick refreshes the
credential and, whenever the refresh succeeds, retries the whole cycle
by self-recursion — the retry is not capped at one, so each further
consecutive unauthorized response with a succeeding refresh adds
another fetch attempt; the tick ends after an unauthorized response
exactly when the refresh call itself fails. -/
theorem C2_recursive_retry (netOk : Bool) (maxResults : Nat)
    (rest : List AttemptOutcome) (refreshRest : List Bool) :
    fetchAttempts (fetchAndProcessEmailsFb netOk maxResults
        (AttemptOutcome.unauthorized :: rest) (true :: refreshRest)) =
      1 + fetchAttempts (fetchAndProcessEmailsFb netOk maxResults rest refreshRest) ∧
    fetchAttempts (fetchAndProcessEmailsFb netOk maxResults
        (AttemptOutcome.unauthorized :: rest) (false :: refreshRest)) = 1 := by
  constructor <;>
    simp [fetchAndProcessEmailsFb, fetchAttempts, List.countP_cons, Action.isListUnread,
      Nat.add_comm]

/-- C4: for every item accepted by the filter in the file-token
variant, the per-item trace is the forward attempt followed by the
mark-as-read call — the webhook failure is absorbed inside
`sendToDiscord` (logged at error level, never thrown), and the
`UNREAD`-label removal is issued whether or not the forward
succeeded. -/
theorem C4_forward_failure_contained (netOk : Bool) (msg : GmailMessage)
    (h : jsIncludes (extractSubject msg) "ALERT" = true) :
    processMessageFile netOk msg =
      sendToDiscord netOk
          { from_ := extractFrom msg, subject := extractSubject msg,
            body := extractBodyPlain msg } ++
        [Action.modify msg.id ["UNREAD"],
         Action.log LogLevel.info
           s!"Processed and marked email as read: {extractSubject msg}"] ∧
    Action.modify msg.id ["UNREAD"] ∈ processMessageFile netOk msg ∧
    (processMessageFile false msg).any Action.isErrorLog = true := by
  refine ⟨?_, ?_, ?_⟩
  · simp [processMessageFile, h]
  · simp [processMessageFile, h]
  · cases hn : netOk <;>
      simp [processMessageFile, h, sendToDiscord, Action.isErrorLog]

/-- C4 witness: the theorem at the `"Server ALERT: disk full"` message
with a failing webhook. -/
theorem C4_witness :
    Action.modify msgAlert.id ["UNREAD"] ∈ processMessageFile false msgAlert ∧
    (processMessageFile false msgAlert).any Action.isErrorLog = true :=
  ⟨(C4_forward_failure_contained false msgAlert (by decide)).2.1,
   (C4_forward_failure_contained false msgAlert (by decide)).2.2⟩

/-- C8: when the Subject header, the From header, or the body data of
the matching part is absent, the extracted values default to
`"No Subject"`, `"Unknown Sender"` and `"No Body Content"`
respectively (for both the plain-only and the plain-or-html part
search), and the item still produces a processing trace rather than a
failure. -/
theorem C8_placeholder_defaults (netOk : Bool) (msg : GmailMessage) :
    (headerValue msg "Subject" = none → extractSubject msg = "No Subject") ∧
    (headerValue msg "From" = none → extractFrom msg = "Unknown Sender") ∧
    (partData (findPlainPart msg) = none → extractBodyPlain msg = "No Body Content") ∧
    (partData (findPlainOrHtmlPart msg) = none →
      extractBodyPlainOrHtml msg = "No Body Content") ∧
    processMessageFile netOk msg ≠ [] := by
  refine ⟨?_, ?_, ?_, ?_, ?_⟩
  · intro h; simp [extractSubject, orElseStr, h]
  · intro h; simp [extractFrom, orElseStr, h]
  · intro h; simp [extractBodyPlain, h]
  · intro h; simp [extractBodyPlainOrHtml, h]
  · by_cases hf : jsIncludes (extractSubject msg) "ALERT" <;>
      simp [processMessageFile, hf, sendToDiscord]

/-- C8 witness: the theorem at a message with no payload. -/
theorem C8_witness :
    extractSubject msgEmpty = "No Subject" ∧
    extractFrom msgEmpty = "Unknown Sender" ∧
    extractBodyPlain msgEmpty = "No Body Content" ∧
    extractBodyPlainOrHtml msgEmpty = "No Body Content" ∧
    processMessageFile true msgEmpty ≠ [] := by
  have h := C8_placeholder_defaults true msgEmpty
  exact ⟨h.1 rfl, h.2.1 rfl, h.2.2.1 rfl, h.2.2.2.1 rfl, h.2.2.2.2⟩

/-- C10: for every item accepted by the filter in the file-token
variant, the payload posted to the webhook carries exactly one embed
whose title is the first 256 characters of the extracted subject,
whose description is the first 4096 characters of the extracted body,
and whose single `From` field holds the first 1024 characters of the
extracted sender. -/
theorem C10_payload_truncation (netOk : Bool) (msg : GmailMessage)
    (h : jsIncludes (extractSubject msg) "ALERT" = true) :
    postsOf (processMessageFile netOk msg) =
      [buildDiscordPayload
        { from_ := extractFrom msg, subject := extractSubject msg,
          body := extractBodyPlain msg }] ∧
    (buildDiscordPayload
        { from_ := extractFrom msg, subject := extractSubject msg,
          body := extractBodyPlain msg }).embeds =
      [{ title := (extractSubject msg).take 256
         description := (extractBodyPlain msg).take 4096
         color := some 3447003
         fields := [{ name := "From", value := (extractFrom msg).take 1024,
                      inlineFld := some false }] }] := by
  constructor
  · cases hn : netOk <;> simp [processMessageFile, h, sendToDiscord, postsOf]
  · rfl

/-- C10 witness: the theorem at the `"Server ALERT: disk full"`
message. -/
theorem C10_witness :
    postsOf (processMessageFile true msgAlert) =
      [buildDiscordPayload
        { from_ := extractFrom msgAlert, subject := extractSubject msgAlert,
          body := extractBodyPlain msgAlert }] ∧
    (buildDiscordPayload
        { from_ := extractFrom msgAlert, subject := extractSubject msgAlert,
          body := extractBodyPlain msgAlert }).embeds =
      [{ title := (extractSubject msgAlert).take 256
         description := (extractBodyPlain msgAlert).take 4096
         color := some 3447003
         fields := [{ name := "From", value := (extractFrom msgAlert).take 1024,
                      inlineFld := some false }] }] :=
  C10_payload_truncation true msgAlert (by decide)

end Gdi
